import Mathlib

/-!
Shallow embedding of the product-replacement pipeline of
`src/services/geminiService.ts` and its orchestration in `src/App.tsx`.

Model calls are represented by an environment supplying each call's outcome
(`Except String _`, the error carrying the upstream error message); errors
thrown by the TypeScript code are `Except.error` values carrying the thrown
`Error`'s message string.  JavaScript truthiness of optional strings
(`undefined`/`null`/`""` are falsy) is modelled by `jsTruthy`.
-/

namespace ProductReplacer

/-- JS truthiness of a possibly-absent string: `undefined`, `null` and `""`
are falsy, every other string is truthy. -/
def jsTruthy : Option String → Bool
  | none => false
  | some s => s != ""

/-- `String.prototype.trim()`: strip leading and trailing whitespace
(structurally recursive so that concrete runs evaluate in the kernel). -/
def jsTrim (s : String) : String :=
  String.mk (((s.data.dropWhile Char.isWhitespace).reverse.dropWhile
    Char.isWhitespace).reverse)

/-- An uploaded image (`src/unnamed/part_002`, `interface ImageFile`); the raw
`File` handle is never inspected by the pipeline, so only the encoded
`base64` data-URL string is modelled. -/
structure ImageFile where
  base64 : String
deriving DecidableEq, Repr

/-- The inline-data part built from an `ImageFile`
(`fileToGenerativePart`, geminiService.ts lines 12-17). -/
structure Part where
  mimeType : String
  data : String
deriving DecidableEq, Repr

/-- A character matched by `.` in a JavaScript regex (anything except a line
terminator). -/
def jsDot (c : Char) : Bool :=
  c != '\n' && c != '\r' && c != '\u2028' && c != '\u2029'

/-- The literal `;base64,` separator of the pattern. -/
def base64Sep : List Char := [';', 'b', 'a', 's', 'e', '6', '4', ',']

/-- The literal `data:` prefix of the pattern. -/
def dataPrefix : List Char := ['d', 'a', 't', 'a', ':']

/-- One candidate split of the text after `data:` into the two capture groups
`(.+)` and `(.+)` around `;base64,`; `none` when position `i` gives no valid
split. -/
def dataUrlSplitAt (cs : List Char) (i : Nat) : Option (List Char × List Char) :=
  let m := cs.take i
  let rest := cs.drop i
  if base64Sep.isPrefixOf rest then
    let d := rest.drop base64Sep.length
    if !m.isEmpty && !d.isEmpty && m.all jsDot && d.all jsDot then some (m, d) else none
  else none

/-- `s.match(/^data:(.+);base64,(.+)$/)` (geminiService.ts line 7): the match
succeeds iff the string is `data:` ++ m ++ `;base64,` ++ d with `m`, `d`
nonempty and free of line terminators; the greedy first group takes the last
valid split. -/
def dataUrlMatch (s : String) : Option (String × String) :=
  if dataPrefix.isPrefixOf s.data then
    let cs := s.data.drop dataPrefix.length
    ((List.range (cs.length + 1)).foldl
      (fun acc i =>
        match dataUrlSplitAt cs i with
        | some md => some md
        | none => acc) none).map
      fun md => (String.mk md.1, String.mk md.2)
  else none

/-- Message of the error thrown by `fileToGenerativePart` on a malformed
data URL (geminiService.ts line 9). -/
def invalidFormatMsg : String := "Invalid base64 string format"

/-- `fileToGenerativePart` (geminiService.ts lines 5-18): throws
`invalidFormatMsg` when the regex does not match, otherwise returns the
inline-data part with the two capture groups. -/
def fileToGenerativePart (image : ImageFile) : Except String Part :=
  match dataUrlMatch image.base64 with
  | none => .error invalidFormatMsg
  | some md => .ok { mimeType := md.1, data := md.2 }

/-- `productImages.map(fileToGenerativePart)` (geminiService.ts lines 27 and
158): JS `Array.map` applies the function left to right and the first throw
aborts the whole map. -/
def mapParts : List ImageFile → Except String (List Part)
  | [] => .ok []
  | img :: rest =>
    match fileToGenerativePart img with
    | .error e => .error e
    | .ok p =>
      match mapParts rest with
      | .error e => .error e
      | .ok ps => .ok (p :: ps)

/-- The dynamic content interpolated into each stage's prompt template.  The
templates themselves (geminiService.ts lines 29-44, 167-178, 199-209, 229-255,
311-329) are fixed prose, pure in these arguments; their literal text is not
inspected by any property, so the prompt is modelled by its stage tag and
interpolated values. -/
inductive Prompt where
  | referenceQuality
  | consistencyAnalysis
  | feedbackAnalysis (feedback : String)
  | generationStage (numRefs : Nat) (instruction : String) (isRetry : Bool)
  | qualityCritique (instruction : String) (editorText : String)
deriving DecidableEq, Repr

/-- A labelled input image recorded in a log entry. -/
structure LogImage where
  label : String
  base64 : String
deriving DecidableEq, Repr

/-- A transparency-log record (`src/unnamed/part_002`, `interface LogEntry`). -/
structure LogEntry where
  step : Nat
  title : String
  model : String
  inputPrompt : Prompt
  inputImages : List LogImage
  outputText : Option String
  outputImage : Option String
deriving DecidableEq, Repr

/-- The labelled product images of a log entry:
`productImages.map((img, i) => ({label: "Product Image " + (i+1), ...}))`. -/
def productLogImages (imgs : List ImageFile) : List LogImage :=
  imgs.enum.map fun pair => ⟨"Product Image " ++ toString (pair.1 + 1), pair.2.base64⟩

/-- The labelled marketing image of a log entry. -/
def marketingLogImage (mkt : ImageFile) : LogImage :=
  ⟨"Marketing Image", mkt.base64⟩

/-- The kind of each model call the pipeline can make, in order to state
which calls a run performs and in which order. -/
inductive CallKind where
  | gate
  | consistency
  | feedbackAnalysis
  | generation
  | critique
deriving DecidableEq, Repr

/-- One part of a generation response candidate: `inlineData` models the
presence of a `part.inlineData` object together with its `data` payload
(possibly the empty string); `text` models `part.text`. -/
structure GenPart where
  inlineData : Option String
  text : Option String
deriving DecidableEq, Repr

/-- A generation response: `candidates[i].content.parts`; an absent or empty
`candidates` array is the empty list. -/
structure GenResponse where
  candidates : List (List GenPart)
deriving DecidableEq, Repr

/-- One step of the part-scanning loop (geminiService.ts lines 277-283):
`if (part.inlineData) resultImage = part.inlineData.data; else if (part.text)
resultText = part.text;` — `part.text` is truthy only when nonempty. -/
def scanStep (acc : Option String × Option String) (p : GenPart) :
    Option String × Option String :=
  match p.inlineData with
  | some d => (some d, acc.2)
  | none =>
    match p.text with
    | some t => if t != "" then (acc.1, some t) else acc
    | none => acc

/-- The part-scanning loop, threading the mutable
`(resultImage, resultText)` pair. -/
def scanGo : (Option String × Option String) → List GenPart →
    Option String × Option String
  | acc, [] => acc
  | acc, p :: rest => scanGo (scanStep acc p) rest

/-- Scanning a candidate's parts starting from `(null, null)`
(geminiService.ts lines 273-284). -/
def scanParts (parts : List GenPart) : Option String × Option String :=
  scanGo (none, none) parts

/-- `if (response.candidates && response.candidates.length > 0)` then scan
`response.candidates[0].content.parts` (geminiService.ts lines 276-284). -/
def extractParts (resp : GenResponse) : Option String × Option String :=
  match resp.candidates with
  | [] => (none, none)
  | parts :: _ => scanParts parts

/-- The text payload a part contributes under the loop's `else if`: only a
part without `inlineData` and with nonempty `text` registers. -/
def textPayloadOf (p : GenPart) : Option String :=
  match p.inlineData with
  | some _ => none
  | none =>
    match p.text with
    | some t => if t != "" then some t else none
    | none => none

/-- The last inline image payload of a part list (what the loop's repeated
assignment actually keeps). -/
def lastImagePayload : List GenPart → Option String
  | [] => none
  | p :: rest =>
    match lastImagePayload rest with
    | some d => some d
    | none => p.inlineData

/-- The last registered text payload of a part list (what the loop's repeated
assignment actually keeps). -/
def lastTextPayload : List GenPart → Option String
  | [] => none
  | p :: rest =>
    match lastTextPayload rest with
    | some t => some t
    | none => textPayloadOf p

/-- Modelled from the spec: "extracting the first inline image payload ...
encountered" — the first part carrying `inlineData`. -/
def firstImagePayload : List GenPart → Option String
  | [] => none
  | p :: rest =>
    match p.inlineData with
    | some d => some d
    | none => firstImagePayload rest

/-- Modelled from the spec: "extracting ... the first text payload
encountered" — the first part carrying `text`. -/
def firstTextPayload : List GenPart → Option String
  | [] => none
  | p :: rest =>
    match p.text with
    | some t => some t
    | none => firstTextPayload rest

/-- Environment outcome of the reference-quality gate call
(geminiService.ts lines 47-70): `.ok` is a response whose `response.text`
is `jsonText` and parses (`JSON.parse` + schema) to the two fields; `.error`
carries the message of a failed call or of a JSON parse failure, both landing
in the same `catch`. -/
structure GateOut where
  jsonText : String
  areImagesSuitable : Bool
  reasoning : String
deriving DecidableEq, Repr

/-- The value `analyzeReferenceImages` resolves with
(geminiService.ts lines 83-87). -/
structure GateResult where
  areImagesSuitable : Bool
  reasoning : String
  log : LogEntry
deriving DecidableEq, Repr

/-- Environment for one `replaceProductInImage` call: the outcome of each
model call it can make.  `analysisResp` serves whichever of the feedback or
consistency analysis call the run performs (only one of the two happens);
errors carry the upstream error message. -/
structure ServiceEnv where
  analysisResp : Except String String
  genResp : Except String GenResponse
  critiqueResp : Except String String

/-- Error thrown by `analyzeReferenceImages` when `process.env.API_KEY` is
unset (geminiService.ts line 24). -/
def configMsgAnalyze : String := "API_KEY environment variable not set."

/-- Error thrown by `replaceProductInImage` when `process.env.API_KEY` is
unset (geminiService.ts line 153). -/
def configMsgReplace : String :=
  "API_KEY environment variable not set. Please ensure it is configured."

/-- Fixed message of the gate's `catch` (geminiService.ts line 91). -/
def gateFailMsg : String := "The AI failed to analyze the reference images."

/-- Fixed message of `getAnalysisInstruction`'s `catch`
(geminiService.ts line 117). -/
def analysisFailMsg : String :=
  "The AI failed to analyze the images for logical consistency."

/-- Placeholder critique installed when the quality-check stage throws
(geminiService.ts line 358). -/
def qcPlaceholder : String :=
  "The AI quality check could not be completed due to an error."

/-- Generic no-image message (geminiService.ts line 304). -/
def noImageGenericMsg : String :=
  "The AI model did not return an image. This can be an intermittent issue. Please try again."

/-- No-image message embedding the model's text (geminiService.ts line 303). -/
def noImageWithTextMsg (t : String) : String :=
  "The AI model failed to generate an image and responded with: \"" ++ t ++ "\""

/-- The outer `catch` of `replaceProductInImage` re-wraps any error thrown
inside its `try` (geminiService.ts line 367). -/
def wrapMsg (e : String) : String := "Failed to generate image: " ++ e

/-- `analyzeReferenceImages` (geminiService.ts lines 20-93), paired with the
list of model calls it makes: API-key check, part construction for the
product images, then the single structured gate call whose failure (or JSON
parse failure) is replaced by the fixed `gateFailMsg`. -/
def analyzeReferenceImagesRun (apiKeySet : Bool) (productImages : List ImageFile)
    (env : Except String GateOut) : Except String GateResult × List CallKind :=
  if !apiKeySet then (.error configMsgAnalyze, [])
  else
    match mapParts productImages with
    | .error e => (.error e, [])
    | .ok _ =>
      match env with
      | .error _ => (.error gateFailMsg, [.gate])
      | .ok g =>
        (.ok { areImagesSuitable := g.areImagesSuitable
               reasoning := g.reasoning
               log := { step := 1
                        title := "Reference Image Quality Check"
                        model := "gemini-2.5-flash"
                        inputPrompt := .referenceQuality
                        inputImages := productLogImages productImages
                        outputText := some g.jsonText
                        outputImage := none } }, [.gate])

/-- The value `replaceProductInImage` resolves with
(geminiService.ts line 362). -/
structure ReplaceResult where
  image : Option String
  text : Option String
  qualityCheck : Option String
  logs : List LogEntry
deriving DecidableEq, Repr

/-- One `replaceProductInImage` call, instrumented: its resolved value or
thrown message, the model calls made, and the final content of the local
`logs` array (which an error abandons rather than returns). -/
structure RunTrace where
  result : Except String ReplaceResult
  calls : List CallKind
  internalLogs : List LogEntry
deriving Repr

/-- The log entries a caller actually receives from a
`replaceProductInImage` call: the `logs` field of a resolved value; a thrown
error hands over none. -/
def callerLogs (t : RunTrace) : List LogEntry :=
  match t.result with
  | .ok r => r.logs
  | .error _ => []

/-- The first stage inside the `try` of `replaceProductInImage`
(geminiService.ts lines 164-224): the feedback-analysis call (inline, no
local `catch`, log step `currentStep++ = 1`) when `feedback` is truthy, else
the consistency-analysis call via `getAnalysisInstruction` (whose `catch`
replaces the error with the fixed `analysisFailMsg`; log step hardcoded 2).
Returns the trimmed instruction and the pushed log entry, plus the call kind
performed. -/
def runAnalysisStage (productImages : List ImageFile) (marketingImage : ImageFile)
    (feedback : Option String) (resp : Except String String) :
    Except String (String × LogEntry) × CallKind :=
  if jsTruthy feedback then
    (match resp with
     | .error e => .error e
     | .ok t =>
       .ok (jsTrim t,
         { step := 1
           title := "Feedback Analysis"
           model := "gemini-2.5-flash"
           inputPrompt := .feedbackAnalysis (feedback.getD "")
           inputImages := productLogImages productImages ++ [marketingLogImage marketingImage]
           outputText := some (jsTrim t)
           outputImage := none }), .feedbackAnalysis)
  else
    (match resp with
     | .error _ => .error analysisFailMsg
     | .ok t =>
       .ok (jsTrim t,
         { step := 2
           title := "Pre-analysis for Logical Consistency"
           model := "gemini-2.5-flash"
           inputPrompt := .consistencyAnalysis
           inputImages := productLogImages productImages ++ [marketingLogImage marketingImage]
           outputText := some (jsTrim t)
           outputImage := none }), .consistency)

/-- The body of the `try` of `replaceProductInImage`
(geminiService.ts lines 163-362), with errors still unwrapped: analysis
stage, generation call and part scan, generation log entry (pushed before the
no-image check), the no-image throw, then the quality check whose own `catch`
substitutes `qcPlaceholder` (and pushes no log entry). -/
def tryBody (productImages : List ImageFile) (marketingImage : ImageFile)
    (feedback : Option String) (env : ServiceEnv) :
    Except String ReplaceResult × List CallKind × List LogEntry :=
  match runAnalysisStage productImages marketingImage feedback env.analysisResp with
  | (.error e, k) => (.error e, [k], [])
  | (.ok instrLog, k) =>
    match env.genResp with
    | .error e => (.error e, [k, .generation], [instrLog.2])
    | .ok resp =>
      let resultImage := (extractParts resp).1
      let resultText := (extractParts resp).2
      let genLog : LogEntry :=
        { step := if jsTruthy feedback then 2 else 3
          title := "Product Replacement Image Generation"
          model := "gemini-2.5-flash-image-preview"
          inputPrompt := .generationStage productImages.length instrLog.1 (jsTruthy feedback)
          inputImages := productLogImages productImages ++ [marketingLogImage marketingImage]
          outputText := resultText
          outputImage :=
            if jsTruthy resultImage then
              some ("data:image/png;base64," ++ resultImage.getD "")
            else none }
      if !jsTruthy resultImage then
        (.error
          (if jsTruthy resultText then noImageWithTextMsg (resultText.getD "")
           else noImageGenericMsg),
         [k, .generation], [instrLog.2, genLog])
      else
        match env.critiqueResp with
        | .error _ =>
          (.ok { image := resultImage
                 text := resultText
                 qualityCheck := some qcPlaceholder
                 logs := [instrLog.2, genLog] },
           [k, .generation, .critique], [instrLog.2, genLog])
        | .ok t =>
          let qcLog : LogEntry :=
            { step := if jsTruthy feedback then 3 else 4
              title := "AI Quality Check"
              model := "gemini-2.5-flash"
              inputPrompt := .qualityCritique instrLog.1
                (if jsTruthy resultText then resultText.getD ""
                 else "No description provided.")
              inputImages := productLogImages productImages ++
                [⟨"Original Marketing Image", marketingImage.base64⟩,
                 ⟨"Generated Image", "data:image/png;base64," ++ resultImage.getD ""⟩]
              outputText := some (jsTrim t)
              outputImage := none }
          (.ok { image := resultImage
                 text := resultText
                 qualityCheck := some (jsTrim t)
                 logs := [instrLog.2, genLog, qcLog] },
           [k, .generation, .critique], [instrLog.2, genLog, qcLog])

/-- `replaceProductInImage` (geminiService.ts lines 145-371): API-key check
and part construction before the `try` (their errors are not wrapped), then
the `try` body whose thrown errors the outer `catch` re-wraps with
`wrapMsg`. -/
def replaceProductRun (apiKeySet : Bool) (productImages : List ImageFile)
    (marketingImage : ImageFile) (feedback : Option String) (env : ServiceEnv) :
    RunTrace :=
  if !apiKeySet then ⟨.error configMsgReplace, [], []⟩
  else
    match mapParts productImages with
    | .error e => ⟨.error e, [], []⟩
    | .ok _ =>
      match fileToGenerativePart marketingImage with
      | .error e => ⟨.error e, [], []⟩
      | .ok _ =>
        match tryBody productImages marketingImage feedback env with
        | (.error e, calls, logs) => ⟨.error (wrapMsg e), calls, logs⟩
        | (.ok r, calls, logs) => ⟨.ok r, calls, logs⟩

/-- The caller's choice at the image-quality warning checkpoint
(`handleContinueAnyway` / `handleCancelFromWarning`, App.tsx
lines 117-125). -/
inductive GateDecision where
  | continueAnyway
  | cancel
deriving DecidableEq, Repr

/-- The relevant slice of the App's state once a run has finished
(`error`, `resultImage`, `resultText`, `qualityCheck`, `logs`), extended with
the model calls the run made. -/
structure AppOutcome where
  error : Option String
  resultImage : Option String
  resultText : Option String
  qualityCheck : Option String
  logs : List LogEntry
  calls : List CallKind
deriving Repr

/-- `startGenerationProcess` (App.tsx lines 43-76): runs
`replaceProductInImage`, and on resolution stores the data-URL-prefixed image,
text, quality check and appended logs (each only if truthy); a rejection sets
`error` to the thrown message and leaves `logs` untouched. -/
def startGenerationProcessOutcome (prevLogs : List LogEntry) (apiKeySet : Bool)
    (productImages : List ImageFile) (marketingImage : ImageFile)
    (feedback : Option String) (env : ServiceEnv) : AppOutcome :=
  let run := replaceProductRun apiKeySet productImages marketingImage feedback env
  match run.result with
  | .error m => ⟨some m, none, none, none, prevLogs, run.calls⟩
  | .ok r =>
    { error :=
        if !jsTruthy r.image && !jsTruthy r.text then
          some "The AI model did not return an image or text. Please try again."
        else none
      resultImage :=
        if jsTruthy r.image then some ("data:image/png;base64," ++ r.image.getD "")
        else none
      resultText := if jsTruthy r.text then r.text else none
      qualityCheck := if jsTruthy r.qualityCheck then r.qualityCheck else none
      logs := prevLogs ++ r.logs
      calls := run.calls }

/-- `handleGenerate` (App.tsx lines 79-115) composed with the warning
checkpoint: reset state, run the gate; on gate success store its log entry; if
suitable (or the caller chooses to continue past the warning) run
`startGenerationProcess`; if the caller cancels, stop with no error and no
results; a gate rejection sets `error` (logs stay empty, reset at
line 94). -/
def appRun (apiKeySet : Bool) (productImages : List ImageFile)
    (marketingImage : ImageFile) (gateEnv : Except String GateOut)
    (decision : GateDecision) (env : ServiceEnv) : AppOutcome :=
  match analyzeReferenceImagesRun apiKeySet productImages gateEnv with
  | (.error m, gcalls) => ⟨some m, none, none, none, [], gcalls⟩
  | (.ok g, gcalls) =>
    if g.areImagesSuitable then
      let o := startGenerationProcessOutcome [g.log] apiKeySet productImages
        marketingImage none env
      { o with calls := gcalls ++ o.calls }
    else
      match decision with
      | .cancel => ⟨none, none, none, none, [g.log], gcalls⟩
      | .continueAnyway =>
        let o := startGenerationProcessOutcome [g.log] apiKeySet productImages
          marketingImage none env
        { o with calls := gcalls ++ o.calls }

/-- `handleRetryWithFeedback` (App.tsx lines 143-154): when the rejection
feedback is nonblank after trimming, re-enter `startGenerationProcess` with
that feedback (the quality gate is not run again and the existing logs are
kept and appended to); otherwise nothing happens. -/
def handleRetryWithFeedbackRun (prevLogs : List LogEntry) (apiKeySet : Bool)
    (productImages : List ImageFile) (marketingImage : ImageFile)
    (rejectionFeedback : String) (env : ServiceEnv) : Option AppOutcome :=
  if jsTrim rejectionFeedback != "" then
    some (startGenerationProcessOutcome prevLogs apiKeySet productImages
      marketingImage (some rejectionFeedback) env)
  else none

theorem jsTruthy_none : jsTruthy none = false := rfl

theorem jsTruthy_some (s : String) : jsTruthy (some s) = (s != "") := rfl

/-- A substring test on character lists, used to reason about which error
messages contain which upstream text. -/
def listContainsChars (s t : List Char) : Bool :=
  (List.range (s.length + 1)).any fun i => t.isPrefixOf (s.drop i)

theorem listContainsChars_of_append (l t r : List Char) :
    listContainsChars (l ++ t ++ r) t = true := by
  unfold listContainsChars
  rw [List.any_eq_true]
  refine ⟨l.length, List.mem_range.mpr (Nat.lt_succ_of_le ?_), ?_⟩
  · simp [List.length_append]
  · rw [List.append_assoc, List.drop_left l (t ++ r)]
    exact List.isPrefixOf_iff_prefix.mpr (List.prefix_append t r)

theorem not_substring_of_listContains_false (s t : String)
    (h : listContainsChars s.data t.data = false) :
    ¬ ∃ pre post : String, s = pre ++ t ++ post := by
  rintro ⟨pre, post, rfl⟩
  rw [String.data_append, String.data_append] at h
  rw [listContainsChars_of_append] at h
  exact Bool.true_eq_false.mp h

theorem fileToGenerativePart_error_eq (img : ImageFile) (e : String)
    (h : fileToGenerativePart img = .error e) : e = invalidFormatMsg := by
  unfold fileToGenerativePart at h
  cases hm : dataUrlMatch img.base64 <;> rw [hm] at h
  · exact (Except.error.inj h).symm
  · exact absurd h (by simp)

theorem mapParts_error_eq (imgs : List ImageFile) (e : String)
    (h : mapParts imgs = .error e) : e = invalidFormatMsg := by
  induction imgs generalizing e with
  | nil => simp [mapParts] at h
  | cons a rest ih =>
    simp only [mapParts] at h
    cases hf : fileToGenerativePart a with
    | error e2 =>
      rw [hf] at h
      exact Except.error.inj h ▸ fileToGenerativePart_error_eq a e2 hf
    | ok p =>
      rw [hf] at h
      cases hr : mapParts rest with
      | error e2 =>
        rw [hr] at h
        exact Except.error.inj h ▸ ih e2 hr
      | ok ps => rw [hr] at h; simp at h

theorem mapParts_ok_match (imgs : List ImageFile) (ps : List Part)
    (h : mapParts imgs = .ok ps) :
    ∀ img ∈ imgs, dataUrlMatch img.base64 ≠ none := by
  induction imgs generalizing ps with
  | nil => intro img hmem; simp at hmem
  | cons a rest ih =>
    intro img hmem
    simp only [mapParts] at h
    cases hf : fileToGenerativePart a with
    | error e2 => rw [hf] at h; simp at h
    | ok p =>
      rw [hf] at h
      cases hr : mapParts rest with
      | error e2 => rw [hr] at h; simp at h
      | ok qs =>
        rcases List.mem_cons.mp hmem with rfl | hmem2
        · intro hn
          unfold fileToGenerativePart at hf
          rw [hn] at hf
          simp at hf
        · exact ih qs hr img hmem2

/-- Left-biased choice, describing what the scan loop's overwriting
assignments compute. -/
def orElseO : Option String → Option String → Option String
  | some a, _ => some a
  | none, y => y

theorem scanGo_eq (parts : List GenPart) :
    ∀ acc : Option String × Option String,
      scanGo acc parts =
        (orElseO (lastImagePayload parts) acc.1,
         orElseO (lastTextPayload parts) acc.2) := by
  induction parts with
  | nil =>
    intro acc
    simp [scanGo, lastImagePayload, lastTextPayload, orElseO]
  | cons p rest ih =>
    intro acc
    simp only [scanGo]
    rw [ih (scanStep acc p)]
    simp only [lastImagePayload, lastTextPayload]
    cases hi : lastImagePayload rest <;> cases ht : lastTextPayload rest <;>
      simp only [orElseO] <;>
      cases hpi : p.inlineData <;>
      simp only [scanStep, hpi, textPayloadOf, orElseO] <;>
      cases hpt : p.text <;> simp only [orElseO] <;>
      first
      | rfl
      | (split <;> simp [orElseO])

theorem scanParts_eq (parts : List GenPart) :
    scanParts parts = (lastImagePayload parts, lastTextPayload parts) := by
  rw [scanParts, scanGo_eq]
  cases lastImagePayload parts <;> cases lastTextPayload parts <;> rfl

theorem lastTextPayload_ne_empty (parts : List GenPart) (t : String)
    (h : lastTextPayload parts = some t) : t ≠ "" := by
  induction parts generalizing t with
  | nil => simp [lastTextPayload] at h
  | cons p rest ih =>
    simp only [lastTextPayload] at h
    cases hr : lastTextPayload rest with
    | some t2 => simp only [hr] at h; exact Option.some.inj h ▸ ih t2 hr
    | none =>
      simp only [hr, textPayloadOf] at h
      cases hpi : p.inlineData with
      | some d => simp [hpi] at h
      | none =>
        cases hpt : p.text with
        | none => simp [hpi, hpt] at h
        | some t2 =>
          simp only [hpi, hpt] at h
          by_cases hb : (t2 != "") = true
          · rw [if_pos hb] at h
            exact Option.some.inj h ▸ bne_iff_ne.mp hb
          · rw [if_neg hb] at h
            exact absurd h (by simp)

theorem extract_text_ne_empty (resp : GenResponse) (t : String)
    (h : (extractParts resp).2 = some t) : t ≠ "" := by
  obtain ⟨cands⟩ := resp
  cases cands with
  | nil => simp [extractParts] at h
  | cons parts rest =>
    simp only [extractParts, scanParts_eq] at h
    exact lastTextPayload_ne_empty parts t h

theorem jsTrim_ne_empty_source (s : String) (h : jsTrim s ≠ "") : s ≠ "" := by
  intro he
  subst he
  exact h rfl

/-- C8: when the API credential is absent, both `analyzeReferenceImages` and
`replaceProductInImage` throw their configuration-error message before doing
anything else: no model call is made and no log entry is produced. -/
theorem missing_api_key_fails_fast (productImages : List ImageFile)
    (marketingImage : ImageFile) (feedback : Option String) (env : ServiceEnv)
    (gateEnv : Except String GateOut) :
    replaceProductRun false productImages marketingImage feedback env =
      ⟨.error configMsgReplace, [], []⟩ ∧
    analyzeReferenceImagesRun false productImages gateEnv =
      (.error configMsgAnalyze, []) :=
  ⟨rfl, rfl⟩

/-- C9: if any input `ImageFile`'s encoded string does not match
`^data:(.+);base64,(.+)$`, `replaceProductInImage` throws the format error
from part construction: no model call is made and no log entry is
appended. -/
theorem invalid_image_format_fails_fast (productImages : List ImageFile)
    (marketingImage : ImageFile) (feedback : Option String) (env : ServiceEnv)
    (h : ∃ img, (img ∈ productImages ∨ img = marketingImage) ∧
      dataUrlMatch img.base64 = none) :
    replaceProductRun true productImages marketingImage feedback env =
      ⟨.error invalidFormatMsg, [], []⟩ := by
  obtain ⟨img, hmem, hbad⟩ := h
  unfold replaceProductRun
  simp only [Bool.not_true, Bool.false_eq_true, if_false]
  cases hp : mapParts productImages with
  | error e => rw [mapParts_error_eq productImages e hp]
  | ok ps =>
    cases hm : fileToGenerativePart marketingImage with
    | error e => rw [fileToGenerativePart_error_eq marketingImage e hm]
    | ok pm =>
      rcases hmem with hmem | rfl
      · exact absurd hbad (mapParts_ok_match productImages ps hp img hmem)
      · unfold fileToGenerativePart at hm
        rw [hbad] at hm
        exact absurd hm (by simp)

/-- Witness for C9 at a concrete malformed product image. -/
theorem invalid_image_format_fails_fast_witness :
    replaceProductRun true [⟨"nope"⟩] ⟨"data:image/png;base64,AAAA"⟩ none
      ⟨.ok "i", .ok ⟨[]⟩, .ok "q"⟩ = ⟨.error invalidFormatMsg, [], []⟩ :=
  invalid_image_format_fails_fast _ _ _ _
    ⟨⟨"nope"⟩, Or.inl (by decide), by decide⟩

/-- C2 counterexample: on a response whose parts hold two inline images and
two texts, the scan yields the LAST image and text payloads, not the first
ones the claim describes. -/
theorem scan_takes_last_not_first_counterexample :
    scanParts [⟨some "a", none⟩, ⟨none, some "t1"⟩, ⟨some "b", none⟩,
        ⟨none, some "t2"⟩] = (some "b", some "t2") ∧
    firstImagePayload [⟨some "a", none⟩, ⟨none, some "t1"⟩, ⟨some "b", none⟩,
        ⟨none, some "t2"⟩] = some "a" ∧
    firstTextPayload [⟨some "a", none⟩, ⟨none, some "t1"⟩, ⟨some "b", none⟩,
        ⟨none, some "t2"⟩] = some "t1" ∧
    scanParts [⟨some "a", none⟩, ⟨none, some "t1"⟩, ⟨some "b", none⟩,
        ⟨none, some "t2"⟩] ≠
      (firstImagePayload [⟨some "a", none⟩, ⟨none, some "t1"⟩, ⟨some "b", none⟩,
          ⟨none, some "t2"⟩],
       firstTextPayload [⟨some "a", none⟩, ⟨none, some "t1"⟩, ⟨some "b", none⟩,
          ⟨none, some "t2"⟩]) := by
  decide

/-- C2 amended: the loop's repeated assignment keeps the LAST inline image
payload and the last nonempty text payload of an image-free part of the first
candidate; parts of the same kind earlier in the list are overwritten.  An
empty candidate array yields nothing. -/
theorem scan_yields_last_payloads (parts : List GenPart)
    (more : List (List GenPart)) :
    extractParts ⟨parts :: more⟩ = (lastImagePayload parts, lastTextPayload parts) ∧
    extractParts ⟨[]⟩ = (none, none) :=
  ⟨scanParts_eq parts, rfl⟩

/-- C7 counterexample: a gate call failing with upstream reason `ECONNRESET`
surfaces the fixed message `gateFailMsg`, and a consistency-analysis call
failing the same way surfaces `wrapMsg analysisFailMsg`; neither message
contains the upstream reason, contradicting the claim that the surfaced
error wraps it. -/
theorem analysis_error_reason_dropped_counterexample :
    (analyzeReferenceImagesRun true [⟨"data:image/png;base64,AAAA"⟩]
        (.error "ECONNRESET")).1 = .error gateFailMsg ∧
    (replaceProductRun true [⟨"data:image/png;base64,AAAA"⟩]
        ⟨"data:image/png;base64,AAAA"⟩ none
        ⟨.error "ECONNRESET", .ok ⟨[]⟩, .ok "q"⟩).result =
      .error (wrapMsg analysisFailMsg) ∧
    (¬ ∃ pre post : String, gateFailMsg = pre ++ "ECONNRESET" ++ post) ∧
    (¬ ∃ pre post : String,
        wrapMsg analysisFailMsg = pre ++ "ECONNRESET" ++ post) := by
  refine ⟨rfl, rfl, ?_, ?_⟩
  · exact not_substring_of_listContains_false _ _ (by decide)
  · exact not_substring_of_listContains_false _ _ (by decide)

/-- C7 amended: a failed (or unusable) gate or consistency-analysis call
surfaces a fixed descriptive message that does not depend on — and hence
does not wrap — the upstream error reason (which is only logged to the
console); only the feedback-analysis call, having no local catch, propagates
the upstream reason, wrapped by the outer catch. -/
theorem analysis_error_fixed_messages (productImages : List ImageFile)
    (marketingImage : ImageFile) (pps : List Part) (pm : Part)
    (hp : mapParts productImages = .ok pps)
    (hm : fileToGenerativePart marketingImage = .ok pm)
    (reason : String) (env : ServiceEnv)
    (ha : env.analysisResp = .error reason)
    (fb : String) (hfb : fb ≠ "") :
    (analyzeReferenceImagesRun true productImages (.error reason)).1 =
      .error gateFailMsg ∧
    (replaceProductRun true productImages marketingImage none env).result =
      .error (wrapMsg analysisFailMsg) ∧
    (replaceProductRun true productImages marketingImage (some fb) env).result =
      .error (wrapMsg reason) := by
  have hb : (fb != "") = true := bne_iff_ne.mpr hfb
  refine ⟨?_, ?_, ?_⟩
  · simp [analyzeReferenceImagesRun, hp]
  · simp [replaceProductRun, tryBody, runAnalysisStage, hp, hm, ha, jsTruthy]
  · simp [replaceProductRun, tryBody, runAnalysisStage, hp, hm, ha, jsTruthy, hb]

/-- Witness for C7's amended theorem at concrete inputs. -/
theorem analysis_error_fixed_messages_witness :
    (analyzeReferenceImagesRun true [⟨"data:image/png;base64,AAAA"⟩]
        (.error "ECONNRESET")).1 = .error gateFailMsg ∧
    (replaceProductRun true [⟨"data:image/png;base64,AAAA"⟩]
        ⟨"data:image/png;base64,AAAA"⟩ none
        ⟨.error "ECONNRESET", .ok ⟨[]⟩, .ok "q"⟩).result =
      .error (wrapMsg analysisFailMsg) ∧
    (replaceProductRun true [⟨"data:image/png;base64,AAAA"⟩]
        ⟨"data:image/png;base64,AAAA"⟩ (some "bad crop")
        ⟨.error "ECONNRESET", .ok ⟨[]⟩, .ok "q"⟩).result =
      .error (wrapMsg "ECONNRESET") :=
  analysis_error_fixed_messages [⟨"data:image/png;base64,AAAA"⟩]
    ⟨"data:image/png;base64,AAAA"⟩ [⟨"image/png", "AAAA"⟩] ⟨"image/png", "AAAA"⟩
    rfl rfl "ECONNRESET" ⟨.error "ECONNRESET", .ok ⟨[]⟩, .ok "q"⟩ rfl
    "bad crop" (by decide)

/-- C6: when the gate verdict is `areImagesSuitable = false` and the caller
cancels from the warning, only the gate call has been made — no analysis,
generation or critique call occurs — no error is set, and the outcome holds
no result image, text or critique. -/
theorem cancel_after_warning_no_calls (productImages : List ImageFile)
    (marketingImage : ImageFile) (pps : List Part)
    (hp : mapParts productImages = .ok pps)
    (jt r : String) (env : ServiceEnv) :
    (appRun true productImages marketingImage (.ok ⟨jt, false, r⟩) .cancel
        env).calls = [.gate] ∧
    (appRun true productImages marketingImage (.ok ⟨jt, false, r⟩) .cancel
        env).error = none ∧
    (appRun true productImages marketingImage (.ok ⟨jt, false, r⟩) .cancel
        env).resultImage = none ∧
    (appRun true productImages marketingImage (.ok ⟨jt, false, r⟩) .cancel
        env).resultText = none ∧
    (appRun true productImages marketingImage (.ok ⟨jt, false, r⟩) .cancel
        env).qualityCheck = none := by
  simp [appRun, analyzeReferenceImagesRun, hp]

/-- Witness for C6 at concrete inputs. -/
theorem cancel_after_warning_no_calls_witness :
    (appRun true [⟨"data:image/png;base64,AAAA"⟩] ⟨"data:image/png;base64,AAAA"⟩
        (.ok ⟨"json", false, "too blurry"⟩) .cancel
        ⟨.ok "i", .ok ⟨[]⟩, .ok "q"⟩).calls = [.gate] ∧
    (appRun true [⟨"data:image/png;base64,AAAA"⟩] ⟨"data:image/png;base64,AAAA"⟩
        (.ok ⟨"json", false, "too blurry"⟩) .cancel
        ⟨.ok "i", .ok ⟨[]⟩, .ok "q"⟩).error = none ∧
    (appRun true [⟨"data:image/png;base64,AAAA"⟩] ⟨"data:image/png;base64,AAAA"⟩
        (.ok ⟨"json", false, "too blurry"⟩) .cancel
        ⟨.ok "i", .ok ⟨[]⟩, .ok "q"⟩).resultImage = none ∧
    (appRun true [⟨"data:image/png;base64,AAAA"⟩] ⟨"data:image/png;base64,AAAA"⟩
        (.ok ⟨"json", false, "too blurry"⟩) .cancel
        ⟨.ok "i", .ok ⟨[]⟩, .ok "q"⟩).resultText = none ∧
    (appRun true [⟨"data:image/png;base64,AAAA"⟩] ⟨"data:image/png;base64,AAAA"⟩
        (.ok ⟨"json", false, "too blurry"⟩) .cancel
        ⟨.ok "i", .ok ⟨[]⟩, .ok "q"⟩).qualityCheck = none :=
  cancel_after_warning_no_calls [⟨"data:image/png;base64,AAAA"⟩]
    ⟨"data:image/png;base64,AAAA"⟩ [⟨"image/png", "AAAA"⟩] rfl "json"
    "too blurry" ⟨.ok "i", .ok ⟨[]⟩, .ok "q"⟩

/-- C4: if the quality-critique stage throws, the run still resolves
normally, with the generated image and text intact and the critique set to
the fixed placeholder string. -/
theorem critique_failure_still_succeeds (productImages : List ImageFile)
    (marketingImage : ImageFile) (pps : List Part) (pm : Part)
    (hp : mapParts productImages = .ok pps)
    (hm : fileToGenerativePart marketingImage = .ok pm)
    (feedback : Option String) (s d e : String) (resp : GenResponse)
    (env : ServiceEnv)
    (ha : env.analysisResp = .ok s) (hg : env.genResp = .ok resp)
    (hc : env.critiqueResp = .error e)
    (hd : (extractParts resp).1 = some d) (hdne : d ≠ "") :
    ∃ r, (replaceProductRun true productImages marketingImage feedback
        env).result = .ok r ∧
      r.image = some d ∧ r.text = (extractParts resp).2 ∧
      r.qualityCheck = some qcPlaceholder := by
  have hb : (d != "") = true := bne_iff_ne.mpr hdne
  cases hjf : jsTruthy feedback <;>
    simp [replaceProductRun, tryBody, runAnalysisStage, hjf, hp, hm, ha, hg,
      hc, hd, hb, jsTruthy_none, jsTruthy_some]

/-- Witness for C4 at concrete inputs. -/
theorem critique_failure_still_succeeds_witness :
    ∃ r, (replaceProductRun true [⟨"data:image/png;base64,AAAA"⟩]
        ⟨"data:image/png;base64,AAAA"⟩ none
        ⟨.ok "instr", .ok ⟨[[⟨some "IMG", none⟩, ⟨none, some "desc"⟩]]⟩,
         .error "boom"⟩).result = .ok r ∧
      r.image = some "IMG" ∧
      r.text = (extractParts ⟨[[⟨some "IMG", none⟩, ⟨none, some "desc"⟩]]⟩).2 ∧
      r.qualityCheck = some qcPlaceholder :=
  critique_failure_still_succeeds [⟨"data:image/png;base64,AAAA"⟩]
    ⟨"data:image/png;base64,AAAA"⟩ [⟨"image/png", "AAAA"⟩] ⟨"image/png", "AAAA"⟩
    rfl rfl none "instr" "IMG" "boom"
    ⟨[[⟨some "IMG", none⟩, ⟨none, some "desc"⟩]]⟩
    ⟨.ok "instr", .ok ⟨[[⟨some "IMG", none⟩, ⟨none, some "desc"⟩]]⟩,
     .error "boom"⟩
    rfl rfl rfl rfl (by decide)

/-- C3: when the generation response yields text but no image,
`replaceProductInImage` throws a message containing that text verbatim; when
it yields neither, it throws the generic retry message instead. -/
theorem no_image_error_propagates_text (productImages : List ImageFile)
    (marketingImage : ImageFile) (pps : List Part) (pm : Part)
    (hp : mapParts productImages = .ok pps)
    (hm : fileToGenerativePart marketingImage = .ok pm)
    (feedback : Option String) (s t : String)
    (resp respNone : GenResponse) (critR : Except String String)
    (hE : extractParts resp = (none, some t))
    (hN : extractParts respNone = (none, none)) :
    ((replaceProductRun true productImages marketingImage feedback
        ⟨.ok s, .ok resp, critR⟩).result =
      .error (wrapMsg (noImageWithTextMsg t)) ∧
     ∃ pre post : String, wrapMsg (noImageWithTextMsg t) = pre ++ t ++ post) ∧
    (replaceProductRun true productImages marketingImage feedback
        ⟨.ok s, .ok respNone, critR⟩).result =
      .error (wrapMsg noImageGenericMsg) := by
  have htne : t ≠ "" := extract_text_ne_empty resp t (by rw [hE])
  have hb : (t != "") = true := bne_iff_ne.mpr htne
  refine ⟨⟨?_, ?_⟩, ?_⟩
  · cases hjf : jsTruthy feedback <;>
      simp [replaceProductRun, tryBody, runAnalysisStage, hjf, hp, hm, hE, hb,
        jsTruthy_none, jsTruthy_some]
  · refine ⟨"Failed to generate image: " ++
      "The AI model failed to generate an image and responded with: \"",
      "\"", ?_⟩
    simp only [wrapMsg, noImageWithTextMsg, String.append_assoc]
  · cases hjf : jsTruthy feedback <;>
      simp [replaceProductRun, tryBody, runAnalysisStage, hjf, hp, hm, hN,
        jsTruthy_none, jsTruthy_some]

/-- Witness for C3 at concrete inputs. -/
theorem no_image_error_propagates_text_witness :
    ((replaceProductRun true [⟨"data:image/png;base64,AAAA"⟩]
        ⟨"data:image/png;base64,AAAA"⟩ none
        ⟨.ok "instr", .ok ⟨[[⟨none, some "cannot comply"⟩]]⟩, .ok "q"⟩).result =
      .error (wrapMsg (noImageWithTextMsg "cannot comply")) ∧
     ∃ pre post : String,
       wrapMsg (noImageWithTextMsg "cannot comply") =
         pre ++ "cannot comply" ++ post) ∧
    (replaceProductRun true [⟨"data:image/png;base64,AAAA"⟩]
        ⟨"data:image/png;base64,AAAA"⟩ none
        ⟨.ok "instr", .ok ⟨[]⟩, .ok "q"⟩).result =
      .error (wrapMsg noImageGenericMsg) :=
  no_image_error_propagates_text [⟨"data:image/png;base64,AAAA"⟩]
    ⟨"data:image/png;base64,AAAA"⟩ [⟨"image/png", "AAAA"⟩] ⟨"image/png", "AAAA"⟩
    rfl rfl none "instr" "cannot comply"
    ⟨[[⟨none, some "cannot comply"⟩]]⟩ ⟨[]⟩ (.ok "q") rfl rfl

/-- C10: a throw inside `replaceProductInImage` hands the caller no log
entries: a rejected run's `callerLogs` are empty, even though in the
no-image case the local array had already accumulated the analysis entry and
the generation entry (appended before the no-image error is thrown). -/
theorem thrown_run_discards_logs (productImages : List ImageFile)
    (marketingImage : ImageFile) (pps : List Part) (pm : Part)
    (hp : mapParts productImages = .ok pps)
    (hm : fileToGenerativePart marketingImage = .ok pm)
    (feedback : Option String) (env : ServiceEnv) (s : String)
    (resp : GenResponse)
    (ha : env.analysisResp = .ok s) (hg : env.genResp = .ok resp)
    (hni : jsTruthy (extractParts resp).1 = false) :
    (∀ envAny : ServiceEnv, ∀ e : String,
      (replaceProductRun true productImages marketingImage feedback
          envAny).result = .error e →
      callerLogs (replaceProductRun true productImages marketingImage feedback
        envAny) = []) ∧
    (∃ e, (replaceProductRun true productImages marketingImage feedback
        env).result = .error e) ∧
    (replaceProductRun true productImages marketingImage feedback
        env).internalLogs.map LogEntry.title =
      [if jsTruthy feedback then "Feedback Analysis"
       else "Pre-analysis for Logical Consistency",
       "Product Replacement Image Generation"] := by
  refine ⟨?_, ?_⟩
  · intro envAny e he
    simp [callerLogs, he]
  · cases hjf : jsTruthy feedback <;>
      simp [replaceProductRun, tryBody, runAnalysisStage, hjf, hp, hm, ha,
        hg, hni, jsTruthy_none, jsTruthy_some]

/-- Witness for C10 at a concrete no-image run. -/
theorem thrown_run_discards_logs_witness :
    (∀ envAny : ServiceEnv, ∀ e : String,
      (replaceProductRun true [⟨"data:image/png;base64,AAAA"⟩]
          ⟨"data:image/png;base64,AAAA"⟩ none envAny).result = .error e →
      callerLogs (replaceProductRun true [⟨"data:image/png;base64,AAAA"⟩]
        ⟨"data:image/png;base64,AAAA"⟩ none envAny) = []) ∧
    (∃ e, (replaceProductRun true [⟨"data:image/png;base64,AAAA"⟩]
        ⟨"data:image/png;base64,AAAA"⟩ none
        ⟨.ok "instr", .ok ⟨[[⟨none, some "cannot comply"⟩]]⟩, .ok "q"⟩).result =
      .error e) ∧
    (replaceProductRun true [⟨"data:image/png;base64,AAAA"⟩]
        ⟨"data:image/png;base64,AAAA"⟩ none
        ⟨.ok "instr", .ok ⟨[[⟨none, some "cannot comply"⟩]]⟩,
         .ok "q"⟩).internalLogs.map LogEntry.title =
      [if jsTruthy none then "Feedback Analysis"
       else "Pre-analysis for Logical Consistency",
       "Product Replacement Image Generation"] :=
  thrown_run_discards_logs [⟨"data:image/png;base64,AAAA"⟩]
    ⟨"data:image/png;base64,AAAA"⟩ [⟨"image/png", "AAAA"⟩] ⟨"image/png", "AAAA"⟩
    rfl rfl none
    ⟨.ok "instr", .ok ⟨[[⟨none, some "cannot comply"⟩]]⟩, .ok "q"⟩ "instr"
    ⟨[[⟨none, some "cannot comply"⟩]]⟩ rfl rfl rfl

theorem startGen_calls (prevLogs : List LogEntry) (apiKeySet : Bool)
    (productImages : List ImageFile) (marketingImage : ImageFile)
    (feedback : Option String) (env : ServiceEnv) :
    (startGenerationProcessOutcome prevLogs apiKeySet productImages
        marketingImage feedback env).calls =
      (replaceProductRun apiKeySet productImages marketingImage feedback
        env).calls := by
  unfold startGenerationProcessOutcome
  cases hres : (replaceProductRun apiKeySet productImages marketingImage
      feedback env).result <;> simp [hres]

theorem replace_calls_shape (productImages : List ImageFile)
    (marketingImage : ImageFile) (pps : List Part) (pm : Part)
    (hp : mapParts productImages = .ok pps)
    (hm : fileToGenerativePart marketingImage = .ok pm)
    (feedback : Option String) (env : ServiceEnv) (s : String)
    (ha : env.analysisResp = .ok s) :
    ∃ tail,
      (replaceProductRun true productImages marketingImage feedback env).calls =
        [(if jsTruthy feedback then CallKind.feedbackAnalysis
          else CallKind.consistency), .generation] ++ tail ∧
      (tail = [] ∨ tail = [.critique]) := by
  cases hg : env.genResp with
  | error e =>
    refine ⟨[], ?_, Or.inl rfl⟩
    cases hjf : jsTruthy feedback <;>
      simp [replaceProductRun, tryBody, runAnalysisStage, hjf, hp, hm, ha, hg]
  | ok resp =>
    cases him : jsTruthy (extractParts resp).1 with
    | false =>
      refine ⟨[], ?_, Or.inl rfl⟩
      cases hjf : jsTruthy feedback <;>
        simp [replaceProductRun, tryBody, runAnalysisStage, hjf, hp, hm, ha,
          hg, him]
    | true =>
      refine ⟨[.critique], ?_, Or.inr rfl⟩
      cases hc : env.critiqueResp <;> cases hjf : jsTruthy feedback <;>
        simp [replaceProductRun, tryBody, runAnalysisStage, hjf, hp, hm, ha,
          hg, him, hc]

/-- C5 counterexample: with the gate suitable but the consistency-analysis
call failing, the run makes a gate call and an analysis call but then zero
generation calls, contradicting the claim that in every `suitable = true`
run exactly one analysis call precedes exactly one generation call. -/
theorem analysis_failure_skips_generation_counterexample :
    (appRun true [⟨"data:image/png;base64,AAAA"⟩] ⟨"data:image/png;base64,AAAA"⟩
        (.ok ⟨"json", true, "r"⟩) .cancel
        ⟨.error "boom", .ok ⟨[]⟩, .ok "q"⟩).calls = [.gate, .consistency] ∧
    (appRun true [⟨"data:image/png;base64,AAAA"⟩] ⟨"data:image/png;base64,AAAA"⟩
        (.ok ⟨"json", true, "r"⟩) .cancel
        ⟨.error "boom", .ok ⟨[]⟩, .ok "q"⟩).calls.count .generation = 0 :=
  ⟨rfl, rfl⟩

/-- C5 amended: in a run whose gate verdict is suitable (or past which the
caller continues), PROVIDED the analysis call itself succeeds, the calls are
exactly gate, then one consistency analysis, then one generation, then at
most one critique; the gate is called exactly once, and a feedback retry
performs a feedback analysis instead of the gate (zero gate calls). -/
theorem stage_call_ordering (productImages : List ImageFile)
    (marketingImage : ImageFile) (pps : List Part) (pm : Part)
    (hp : mapParts productImages = .ok pps)
    (hm : fileToGenerativePart marketingImage = .ok pm)
    (jt r s : String) (b : Bool) (dec : GateDecision) (env : ServiceEnv)
    (ha : env.analysisResp = .ok s)
    (hOK : b = true ∨ dec = .continueAnyway)
    (prevLogs : List LogEntry) (fb : String) (hfb : fb ≠ "") :
    (∃ tail,
      (appRun true productImages marketingImage (.ok ⟨jt, b, r⟩) dec
          env).calls = [.gate, .consistency, .generation] ++ tail ∧
      (tail = [] ∨ tail = [.critique])) ∧
    (appRun true productImages marketingImage (.ok ⟨jt, b, r⟩) dec
        env).calls.count .gate = 1 ∧
    (∃ tail,
      (startGenerationProcessOutcome prevLogs true productImages
          marketingImage (some fb) env).calls =
        [.feedbackAnalysis, .generation] ++ tail ∧
      (tail = [] ∨ tail = [.critique])) ∧
    (startGenerationProcessOutcome prevLogs true productImages marketingImage
        (some fb) env).calls.count .gate = 0 := by
  have hbfb : (fb != "") = true := bne_iff_ne.mpr hfb
  have happ : (appRun true productImages marketingImage (.ok ⟨jt, b, r⟩) dec
      env).calls =
      .gate :: (replaceProductRun true productImages marketingImage none
        env).calls := by
    rcases hOK with rfl | rfl
    · simp [appRun, analyzeReferenceImagesRun, hp, startGen_calls]
    · cases b <;> simp [appRun, analyzeReferenceImagesRun, hp, startGen_calls]
  obtain ⟨tail, htail, hcase⟩ := replace_calls_shape productImages
    marketingImage pps pm hp hm none env s ha
  simp only [jsTruthy_none, if_false] at htail
  obtain ⟨tail2, htail2, hcase2⟩ := replace_calls_shape productImages
    marketingImage pps pm hp hm (some fb) env s ha
  simp only [jsTruthy_some, hbfb, if_true] at htail2
  refine ⟨⟨tail, ?_, hcase⟩, ?_, ⟨tail2, ?_, hcase2⟩, ?_⟩
  · rw [happ, htail]; rfl
  · rw [happ, htail]
    rcases hcase with rfl | rfl <;> decide
  · rw [startGen_calls, htail2]
  · rw [startGen_calls, htail2]
    rcases hcase2 with rfl | rfl <;> decide

/-- Witness for C5's amended theorem at concrete inputs. -/
theorem stage_call_ordering_witness :
    (∃ tail,
      (appRun true [⟨"data:image/png;base64,AAAA"⟩]
          ⟨"data:image/png;base64,AAAA"⟩ (.ok ⟨"json", true, "r"⟩) .cancel
          ⟨.ok "instr", .ok ⟨[[⟨some "IMG", none⟩]]⟩, .ok "q"⟩).calls =
        [.gate, .consistency, .generation] ++ tail ∧
      (tail = [] ∨ tail = [.critique])) ∧
    (appRun true [⟨"data:image/png;base64,AAAA"⟩]
        ⟨"data:image/png;base64,AAAA"⟩ (.ok ⟨"json", true, "r"⟩) .cancel
        ⟨.ok "instr", .ok ⟨[[⟨some "IMG", none⟩]]⟩, .ok "q"⟩).calls.count
      .gate = 1 ∧
    (∃ tail,
      (startGenerationProcessOutcome [] true [⟨"data:image/png;base64,AAAA"⟩]
          ⟨"data:image/png;base64,AAAA"⟩ (some "fix the shadow")
          ⟨.ok "instr", .ok ⟨[[⟨some "IMG", none⟩]]⟩, .ok "q"⟩).calls =
        [.feedbackAnalysis, .generation] ++ tail ∧
      (tail = [] ∨ tail = [.critique])) ∧
    (startGenerationProcessOutcome [] true [⟨"data:image/png;base64,AAAA"⟩]
        ⟨"data:image/png;base64,AAAA"⟩ (some "fix the shadow")
        ⟨.ok "instr", .ok ⟨[[⟨some "IMG", none⟩]]⟩, .ok "q"⟩).calls.count
      .gate = 0 :=
  stage_call_ordering [⟨"data:image/png;base64,AAAA"⟩]
    ⟨"data:image/png;base64,AAAA"⟩ [⟨"image/png", "AAAA"⟩] ⟨"image/png", "AAAA"⟩
    rfl rfl "json" "r" "instr" true .cancel
    ⟨.ok "instr", .ok ⟨[[⟨some "IMG", none⟩]]⟩, .ok "q"⟩ rfl (Or.inl rfl)
    [] "fix the shadow" (by decide)

/-- C1 counterexample: a fresh accepted run in which every stage succeeds is
a successful run with FOUR model calls and a four-entry log handed to the
caller (gate, analysis, generation, critique), not three as the claim
states; moreover, when only the critique call fails the run is still
successful with four model calls but a THREE-entry log, so the log length
does not always equal the number of calls made. -/
theorem fresh_run_log_count_counterexample :
    (appRun true [⟨"data:image/png;base64,AAAA"⟩] ⟨"data:image/png;base64,AAAA"⟩
        (.ok ⟨"json", true, "r"⟩) .cancel
        ⟨.ok "instr", .ok ⟨[[⟨some "IMG", none⟩, ⟨none, some "desc"⟩]]⟩,
         .ok "fine"⟩).error = none ∧
    (appRun true [⟨"data:image/png;base64,AAAA"⟩] ⟨"data:image/png;base64,AAAA"⟩
        (.ok ⟨"json", true, "r"⟩) .cancel
        ⟨.ok "instr", .ok ⟨[[⟨some "IMG", none⟩, ⟨none, some "desc"⟩]]⟩,
         .ok "fine"⟩).logs.length = 4 ∧
    (appRun true [⟨"data:image/png;base64,AAAA"⟩] ⟨"data:image/png;base64,AAAA"⟩
        (.ok ⟨"json", true, "r"⟩) .cancel
        ⟨.ok "instr", .ok ⟨[[⟨some "IMG", none⟩, ⟨none, some "desc"⟩]]⟩,
         .ok "fine"⟩).calls.length = 4 ∧
    (appRun true [⟨"data:image/png;base64,AAAA"⟩] ⟨"data:image/png;base64,AAAA"⟩
        (.ok ⟨"json", true, "r"⟩) .cancel
        ⟨.ok "instr", .ok ⟨[[⟨some "IMG", none⟩, ⟨none, some "desc"⟩]]⟩,
         .error "boom"⟩).error = none ∧
    (appRun true [⟨"data:image/png;base64,AAAA"⟩] ⟨"data:image/png;base64,AAAA"⟩
        (.ok ⟨"json", true, "r"⟩) .cancel
        ⟨.ok "instr", .ok ⟨[[⟨some "IMG", none⟩, ⟨none, some "desc"⟩]]⟩,
         .error "boom"⟩).logs.length = 3 ∧
    (appRun true [⟨"data:image/png;base64,AAAA"⟩] ⟨"data:image/png;base64,AAAA"⟩
        (.ok ⟨"json", true, "r"⟩) .cancel
        ⟨.ok "instr", .ok ⟨[[⟨some "IMG", none⟩, ⟨none, some "desc"⟩]]⟩,
         .error "boom"⟩).calls.length = 4 :=
  ⟨rfl, rfl, rfl, rfl, rfl, rfl⟩

/-- C1 amended: on a run in which every stage's call succeeds and yields a
(nonempty) image, the log handed to the caller has step numbers exactly
1,2,3,4 (strictly increasing from 1) and its length equals the FOUR model
calls made — both on a fresh accepted run and on the gate-warning path —
while a feedback retry appends three entries with steps 1,2,3 matching its
three model calls, the gate not being repeated.  (When the critique call
fails, its call produces no entry and the log is one shorter than the number
of calls.) -/
theorem run_log_steps_and_call_counts (productImages : List ImageFile)
    (marketingImage : ImageFile) (pps : List Part) (pm : Part)
    (hp : mapParts productImages = .ok pps)
    (hm : fileToGenerativePart marketingImage = .ok pm)
    (jt r s qc : String) (b : Bool) (dec : GateDecision)
    (resp : GenResponse) (d : String)
    (hd : (extractParts resp).1 = some d) (hdne : d ≠ "")
    (hOK : b = true ∨ dec = .continueAnyway)
    (prevLogs : List LogEntry) (fb : String) (hfb : jsTrim fb ≠ "") :
    ((appRun true productImages marketingImage (.ok ⟨jt, b, r⟩) dec
        ⟨.ok s, .ok resp, .ok qc⟩).error = none ∧
     (appRun true productImages marketingImage (.ok ⟨jt, b, r⟩) dec
        ⟨.ok s, .ok resp, .ok qc⟩).logs.map LogEntry.step = [1, 2, 3, 4] ∧
     (appRun true productImages marketingImage (.ok ⟨jt, b, r⟩) dec
        ⟨.ok s, .ok resp, .ok qc⟩).calls =
       [.gate, .consistency, .generation, .critique]) ∧
    (∃ o, handleRetryWithFeedbackRun prevLogs true productImages
        marketingImage fb ⟨.ok s, .ok resp, .ok qc⟩ = some o ∧
      (o.logs.drop prevLogs.length).map LogEntry.step = [1, 2, 3] ∧
      o.calls = [.feedbackAnalysis, .generation, .critique]) := by
  have hb : (d != "") = true := bne_iff_ne.mpr hdne
  have hfb2 : fb ≠ "" := jsTrim_ne_empty_source fb hfb
  have hbfb : (fb != "") = true := bne_iff_ne.mpr hfb2
  have hjt : (jsTrim fb != "") = true := bne_iff_ne.mpr hfb
  constructor
  · rcases hOK with rfl | rfl
    · simp [appRun, analyzeReferenceImagesRun, hp,
        startGenerationProcessOutcome, replaceProductRun, tryBody,
        runAnalysisStage, hm, hd, hb, jsTruthy_none, jsTruthy_some]
    · cases b <;>
        simp [appRun, analyzeReferenceImagesRun, hp,
          startGenerationProcessOutcome, replaceProductRun, tryBody,
          runAnalysisStage, hm, hd, hb, jsTruthy_none, jsTruthy_some]
  · simp [handleRetryWithFeedbackRun, hjt, startGenerationProcessOutcome,
      replaceProductRun, tryBody, runAnalysisStage, hp, hm, hd, hb, hbfb,
      jsTruthy_none, jsTruthy_some, List.drop_left]

/-- Witness for C1's amended theorem at concrete inputs. -/
theorem run_log_steps_and_call_counts_witness :
    ((appRun true [⟨"data:image/png;base64,AAAA"⟩]
        ⟨"data:image/png;base64,AAAA"⟩ (.ok ⟨"json", true, "r"⟩) .cancel
        ⟨.ok "instr", .ok ⟨[[⟨some "IMG", none⟩, ⟨none, some "desc"⟩]]⟩,
         .ok "fine"⟩).error = none ∧
     (appRun true [⟨"data:image/png;base64,AAAA"⟩]
        ⟨"data:image/png;base64,AAAA"⟩ (.ok ⟨"json", true, "r"⟩) .cancel
        ⟨.ok "instr", .ok ⟨[[⟨some "IMG", none⟩, ⟨none, some "desc"⟩]]⟩,
         .ok "fine"⟩).logs.map LogEntry.step = [1, 2, 3, 4] ∧
     (appRun true [⟨"data:image/png;base64,AAAA"⟩]
        ⟨"data:image/png;base64,AAAA"⟩ (.ok ⟨"json", true, "r"⟩) .cancel
        ⟨.ok "instr", .ok ⟨[[⟨some "IMG", none⟩, ⟨none, some "desc"⟩]]⟩,
         .ok "fine"⟩).calls =
       [.gate, .consistency, .generation, .critique]) ∧
    (∃ o, handleRetryWithFeedbackRun [] true [⟨"data:image/png;base64,AAAA"⟩]
        ⟨"data:image/png;base64,AAAA"⟩ "fix the shadow"
        ⟨.ok "instr", .ok ⟨[[⟨some "IMG", none⟩, ⟨none, some "desc"⟩]]⟩,
         .ok "fine"⟩ = some o ∧
      (o.logs.drop ([] : List LogEntry).length).map LogEntry.step = [1, 2, 3] ∧
      o.calls = [.feedbackAnalysis, .generation, .critique]) :=
  run_log_steps_and_call_counts [⟨"data:image/png;base64,AAAA"⟩]
    ⟨"data:image/png;base64,AAAA"⟩ [⟨"image/png", "AAAA"⟩] ⟨"image/png", "AAAA"⟩
    rfl rfl "json" "r" "instr" "fine" true .cancel
    ⟨[[⟨some "IMG", none⟩, ⟨none, some "desc"⟩]]⟩ "IMG" rfl (by decide)
    (Or.inl rfl) [] "fix the shadow" (by decide)

end ProductReplacer
